import Mathlib

/-!
Verification development for the picframe media-catalog core: a shallow
embedding of `picframe/schema.py`, `picframe/image_cache.py` and
`picframe/async_timer.py`.

Modelling conventions:
* SQLite REAL timestamps and coordinates are modelled as `Int`: every claim
  only compares them with `=`, `<`, `≤`, never arithmetic on fractions.
* A table is a `List` of row structures; `PRIMARY KEY` / `UNIQUE` lookups are
  modelled with `List.find?` (at most one row can match in a store built by
  the code, and SQLite's `fetchone` returns the first match).
* Python / sqlite3 exceptions are an explicit `PyError`; an operation that
  raises is a `Except.error`.  The `folder` table created by
  `schema.create_schema` has *no* `missing` column and the `file` table's
  `source` column is `NOT NULL` without default, so the statements in
  `image_cache.py` that touch them raise - this is modelled, not repaired.
-/

namespace Picframe

/-- Python / sqlite3 exceptions that the modelled code can raise. -/
inductive PyError where
  | operationalError (msg : String)
  | integrityError (msg : String)
  | attributeError (msg : String)
  | indexError (msg : String)
  | osError (msg : String)
deriving DecidableEq, Repr

/-! ## Path helpers (os.path) -/

/-- Index of the last occurrence of `c` in `cs`, if any. -/
def lastIndexOf? (c : Char) : List Char → Option Nat
  | [] => none
  | x :: xs =>
    match lastIndexOf? c xs with
    | some i => some (i + 1)
    | none => if x = c then some 0 else none

/-- `os.path.basename`: the component after the last slash. -/
def pathBasename (p : String) : String :=
  match lastIndexOf? '/' p.toList with
  | none => p
  | some i => ⟨p.toList.drop (i + 1)⟩

/-- Drop trailing slashes (used by `os.path.split` on the head part). -/
def dropTrailingSlashes (cs : List Char) : List Char :=
  (cs.reverse.dropWhile (· = '/')).reverse

/-- `os.path.split`: split into `(head, tail)` at the last slash; the head
keeps a leading slash but loses trailing ones (posixpath behaviour). -/
def pathSplit (p : String) : String × String :=
  match lastIndexOf? '/' p.toList with
  | none => ("", p)
  | some i =>
    let head := p.toList.take (i + 1)
    let tail := p.toList.drop (i + 1)
    (if head.all (· = '/') then ⟨head⟩ else ⟨dropTrailingSlashes head⟩, ⟨tail⟩)

/-- `os.path.splitext` (posixpath): split off the extension at the last dot,
unless every character before it in the final component is a dot. -/
def splitext (p : String) : String × String :=
  let cs := p.toList
  let sepIdx : Int :=
    match lastIndexOf? '/' cs with
    | none => -1
    | some i => (i : Int)
  match lastIndexOf? '.' cs with
  | none => (p, "")
  | some d =>
    if sepIdx < (d : Int) then
      let stem := (cs.drop (sepIdx + 1).toNat).take ((d : Int) - sepIdx - 1).toNat
      if stem.any (· ≠ '.') then (⟨cs.take d⟩, ⟨cs.drop d⟩) else (p, "")
    else (p, "")

/-- Python `str.lstrip(".")`: drop all leading dots. -/
def lstripDots (s : String) : String := ⟨s.toList.dropWhile (· = '.')⟩

/-- Python `str.lower()` (kernel-reducible form). -/
def toLowerString (s : String) : String := ⟨s.toList.map Char.toLower⟩

/-- Python `s.startswith(".")` / `s[0] == '.'`. -/
def startsWithDot (s : String) : Bool :=
  match s.toList with
  | [] => false
  | c :: _ => c == '.'

/-- Substring test over char lists (`pat in s` for Python strings). -/
def hasSublist (pat : List Char) : List Char → Bool
  | [] => pat.isEmpty
  | c :: cs => pat.isPrefixOf (c :: cs) || hasSublist pat cs

/-- Python `pat in s` on strings. -/
def strContains (s pat : String) : Bool := hasSublist pat.toList s.toList

/-! ## Data model: the tables created by `schema.create_schema`.

`FolderRow` deliberately has *no* `missing` field: `sql_folder_table` in
`schema.py` creates only `folder_id`, `name`, `last_modified`. -/

/-- A row of the `folder` table (`sql_folder_table`). -/
structure FolderRow where
  folder_id : Nat
  name : String
  last_modified : Int
deriving DecidableEq, Repr

/-- A row of the `file` table (`sql_file_table`).  `source` is declared
`TEXT NOT NULL` with no default, `playlist`/`width`/`height` are nullable. -/
structure FileRow where
  file_id : Nat
  folder_id : Nat
  source : String
  playlist : Option Int
  basename : String
  extension : String
  width : Option Int
  height : Option Int
  last_modified : Int
  displayed_count : Int
  last_displayed : Int
deriving DecidableEq, Repr

/-- A row of the `meta` table (`sql_meta_table`). -/
structure MetaRow where
  file_id : Nat
  orientation : Int
  exif_datetime : Int
  f_number : Int
  exposure_time : Option String
  iso : Int
  focal_length : Option String
  make : Option String
  model : Option String
  lens : Option String
  rating : Option Int
  latitude : Option Int
  longitude : Option Int
  width : Int
  height : Int
  title : Option String
  caption : Option String
  tags : Option String
  nix_caption : Option String
deriving DecidableEq, Repr

/-- A row of the `location` table (`sql_location_table`). -/
structure LocationRow where
  id : Nat
  latitude : Option Int
  longitude : Option Int
  description : Option String
deriving DecidableEq, Repr

/-- The catalog store owned by `ImageCache` (the tables the claims touch). -/
structure DBState where
  folders : List FolderRow
  files : List FileRow
  metas : List MetaRow
  locations : List LocationRow
deriving DecidableEq, Repr

/-! ## The `all_data` view (`sql_all_data_view`).

The view is `file INNER JOIN folder LEFT JOIN meta LEFT JOIN location` and its
`file_id` column comes from `meta.*`; a file row without a meta row therefore
surfaces with a NULL `file_id` (and NULL meta columns) and can never satisfy
`file_id = ?`, so the embedding keeps exactly the rows whose meta join
succeeds.  The location join `location.latitude = meta.latitude AND
location.longitude = meta.longitude` never matches NULL coordinates (SQL
three-valued logic), which `lookupLocation` reproduces. -/

/-- The meta-joined core of an `all_data` row, before the location join. -/
structure CoreRow where
  fname : String
  last_modified : Int
  meta : MetaRow
deriving DecidableEq, Repr

/-- An `all_data` view row. -/
structure AllDataRow where
  fname : String
  last_modified : Int
  file_id : Nat
  orientation : Int
  exif_datetime : Int
  f_number : Int
  exposure_time : Option String
  iso : Int
  focal_length : Option String
  make : Option String
  model : Option String
  lens : Option String
  rating : Option Int
  latitude : Option Int
  longitude : Option Int
  width : Int
  height : Int
  title : Option String
  caption : Option String
  tags : Option String
  nix_caption : Option String
  is_portrait : Bool
  location : Option String
deriving DecidableEq, Repr

/-- `LEFT JOIN location ON latitude/longitude equality` (NULLs never join). -/
def lookupLocation (locations : List LocationRow) :
    Option Int → Option Int → Option String
  | some la, some lo =>
    match locations.find? (fun L => L.latitude == some la && L.longitude == some lo) with
    | some L => L.description
    | none => none
  | _, _ => none

/-- `file INNER JOIN folder` plus the meta join for one file row:
`fname = folder.name || "/" || file.basename || "." || file.extension`. -/
def viewCore (folders : List FolderRow) (metas : List MetaRow) (f : FileRow) :
    Option CoreRow :=
  match folders.find? (fun fo => fo.folder_id == f.folder_id),
        metas.find? (fun m => m.file_id == f.file_id) with
  | some fo, some m =>
    some { fname := fo.name ++ "/" ++ f.basename ++ "." ++ f.extension,
           last_modified := f.last_modified,
           meta := m }
  | _, _ => none

/-- Attach the location join and the computed `is_portrait` column. -/
def decorate (locations : List LocationRow) (c : CoreRow) : AllDataRow :=
  { fname := c.fname
    last_modified := c.last_modified
    file_id := c.meta.file_id
    orientation := c.meta.orientation
    exif_datetime := c.meta.exif_datetime
    f_number := c.meta.f_number
    exposure_time := c.meta.exposure_time
    iso := c.meta.iso
    focal_length := c.meta.focal_length
    make := c.meta.make
    model := c.meta.model
    lens := c.meta.lens
    rating := c.meta.rating
    latitude := c.meta.latitude
    longitude := c.meta.longitude
    width := c.meta.width
    height := c.meta.height
    title := c.meta.title
    caption := c.meta.caption
    tags := c.meta.tags
    nix_caption := c.meta.nix_caption
    is_portrait := decide (c.meta.width < c.meta.height)
    location := lookupLocation locations c.meta.latitude c.meta.longitude }

/-- The meta-joined rows of the view, before location decoration. -/
def coreRows (folders : List FolderRow) (metas : List MetaRow)
    (files : List FileRow) : List CoreRow :=
  files.filterMap (viewCore folders metas)

/-- The rows of the `all_data` view. -/
def allDataRows (db : DBState) : List AllDataRow :=
  (coreRows db.folders db.metas db.files).map (decorate db.locations)

/-- `SELECT * FROM all_data WHERE file_id = ?` + `fetchone`. -/
def fetchAllData (db : DBState) (fid : Nat) : Option AllDataRow :=
  (allDataRows db).find? (fun r => r.file_id == fid)

/-! ## Filesystem collaborator (os.walk / os.listdir / os.stat). -/

/-- The filesystem as `ImageCache` observes it.  `walkDirs` is the output of
`os.walk(picture_dir)` paired with each directory's `int(st_mtime)`;
`mtime` is `os.path.getmtime` (`none` = the call raises `OSError`);
`pathExists` is `os.path.exists`. -/
structure FileSystem where
  walkDirs : List (String × Int)
  listDir : String → List String
  mtime : String → Option Int
  pathExists : String → Bool

/-- `ImageCache.EXTENSIONS` (image file extensions, from `image_cache.py`). -/
def EXTENSIONS : List String :=
  [".png", ".jpg", ".jpeg", ".heif", ".heic", ".jxl", ".webp"]

/-- Modelled from the spec: `VIDEO_EXTENSIONS` is imported from
`picframe/video_streamer.py`, which is not part of the corpus; the spec
(§4.2 step 2) only requires a recognized set of video container extensions. -/
def VIDEO_EXTENSIONS : List String := [".mp4", ".mov", ".avi", ".mkv"]

/-! ## ImageCache write path -/

/-- `ImageCache.__insert_file`.  The happy path intended by the spec is
unreachable in this source tree:

* for an image extension the code calls `self.__get_exif_info(file)`, but
  `ImageCache` defines no such method (the helper lives at module level in
  `image_meta_utils.py`); Python name-mangling turns the call into
  `self._ImageCache__get_exif_info` and raises `AttributeError`;
* for a video extension the extraction succeeds (the spec's
  MetadataExtractor "fails gracefully, never crashing the caller"), but the
  statement `UPDATE folder SET missing = 0 WHERE name = ?` is prepared
  against the `folder` table of `schema.py`, which has no `missing` column,
  and sqlite3 raises `OperationalError`.  (Were that column present, the
  subsequent `INSERT OR REPLACE INTO file(folder_id, basename, extension,
  last_modified)` would still abort with `IntegrityError` because
  `file.source` is `NOT NULL` without a default.)

The error escapes before any `commit`, so no state survives; the
uncommitted `INSERT OR IGNORE INTO folder` preceding the video-path error is
therefore not tracked. -/
def insertFile (fs : FileSystem) (db : DBState) (file : String)
    (file_id : Option Nat) : Except PyError DBState :=
  match fs.mtime file with
  | none => .error (.osError file)
  | some _mod_tm =>
    let (_dir, file_only) := pathSplit file
    let (_base, extension) := splitext file_only
    let ext := toLowerString extension
    let _ := (db, file_id)
    if VIDEO_EXTENSIONS.contains ext then
      .error (.operationalError "no such column: missing")
    else
      .error (.attributeError
        "'ImageCache' object has no attribute '_ImageCache__get_exif_info'")

/-- `ImageCache.__get_modified_folders`: skip hidden directory basenames;
keep a directory when it has no `folder` row or its stored mtime is older.
For a directory whose row exists and is up to date the source evaluates
`found['missing']`, and the `sqlite3.Row` built from `SELECT * FROM folder`
has no such key (the schema has no `missing` column), so Python raises
`IndexError`. -/
def getModifiedFoldersGo (db : DBState) :
    List (String × Int) → Except PyError (List (String × Int))
  | [] => .ok []
  | (dir, mod_tm) :: rest =>
    if pathBasename dir ≠ "" && startsWithDot (pathBasename dir) then
      getModifiedFoldersGo db rest
    else
      match db.folders.find? (fun fo => fo.name == dir) with
      | none => (getModifiedFoldersGo db rest).map ((dir, mod_tm) :: ·)
      | some found =>
        if found.last_modified < mod_tm then
          (getModifiedFoldersGo db rest).map ((dir, mod_tm) :: ·)
        else .error (.indexError "No item with that key")

/-- `ImageCache.__get_modified_folders`. -/
def getModifiedFolders (fs : FileSystem) (db : DBState) :
    Except PyError (List (String × Int)) :=
  getModifiedFoldersGo db fs.walkDirs

/-- The `SELECT ... FROM file INNER JOIN folder ...` probe used by
`__get_modified_files`: is there a file row with this basename, stripped
extension and folder name whose stored mtime is at least the on-disk one? -/
def fileAlreadyCurrent (db : DBState) (base ext dir : String) (mod_tm : Int) :
    Bool :=
  db.files.any (fun f =>
    f.basename == base && f.extension == ext &&
    decide (mod_tm ≤ f.last_modified) &&
    db.folders.any (fun fo => fo.folder_id == f.folder_id && fo.name == dir))

/-- One directory listing pass of `__get_modified_files`: keep entries with a
recognized extension, excluding hidden files and `.AppleDouble` junk, whose
store row is absent or older than the on-disk mtime. -/
def modifiedFilesInDir (fs : FileSystem) (db : DBState) (dir : String) :
    List String → Except PyError (List String)
  | [] => .ok []
  | file :: rest =>
    let (base, extension) := splitext file
    if (EXTENSIONS ++ VIDEO_EXTENSIONS).contains (toLowerString extension) &&
        !strContains dir ".AppleDouble" && !startsWithDot file then
      let full_file := dir ++ "/" ++ file
      match fs.mtime full_file with
      | none => .error (.osError full_file)
      | some mod_tm =>
        if fileAlreadyCurrent db base (lstripDots extension) dir mod_tm then
          modifiedFilesInDir fs db dir rest
        else
          (modifiedFilesInDir fs db dir rest).map (full_file :: ·)
    else
      modifiedFilesInDir fs db dir rest

/-- `ImageCache.__get_modified_files` over the modified-folder list. -/
def getModifiedFiles (fs : FileSystem) (db : DBState) :
    List (String × Int) → Except PyError (List String)
  | [] => .ok []
  | (dir, _) :: rest => do
    let here ← modifiedFilesInDir fs db dir (fs.listDir dir)
    let there ← getModifiedFiles fs db rest
    .ok (here ++ there)

/-- `ImageCache.__update_folder_info` runs
`executemany("UPDATE folder SET last_modified = ?, missing = 0 WHERE name = ?", ...)`.
sqlite3 prepares the statement before binding any parameter row, and the
`folder` table created by `schema.create_schema` has no `missing` column, so
this raises `OperationalError` even when the folder collection is empty. -/
def updateFolderInfo (db : DBState) (folder_collection : List (String × Int)) :
    Except PyError DBState :=
  let _ := (db, folder_collection)
  .error (.operationalError "no such column: missing")

/-- `DELETE FROM file WHERE file_id = ?` plus the `Clean_Meta_Trigger`
(`AFTER DELETE ON file` deletes the matching `meta` row). -/
def deleteFileCascade (db : DBState) (fileId : Nat) : DBState :=
  { db with
    files := db.files.filter (fun f => !(f.file_id == fileId)),
    metas := db.metas.filter (fun m => !(m.file_id == fileId)) }

/-- `DELETE FROM folder WHERE folder_id = ?` plus the `Clean_File_Trigger`
(`AFTER DELETE ON folder` deletes the folder's `file` rows) and, chained
from each of those deletions, the `Clean_Meta_Trigger` (distinct-trigger
chaining fires under SQLite's default settings). -/
def deleteFolderCascade (db : DBState) (folderId : Nat) : DBState :=
  let deadFiles := db.files.filter (fun f => f.folder_id == folderId)
  { db with
    folders := db.folders.filter (fun fo => !(fo.folder_id == folderId)),
    files := db.files.filter (fun f => !(f.folder_id == folderId)),
    metas := db.metas.filter
      (fun m => !(deadFiles.any (fun f => f.file_id == m.file_id))) }

/-- The file half of `__purge_missing_files_and_folders`: only when the
one-shot purge flag is armed, delete the `all_data` rows whose `fname` is
gone from disk, then clear the flag. -/
def purgeMissingFilesPhase (fs : FileSystem) (db : DBState)
    (purgeFlag : Bool) : DBState × Bool :=
  if purgeFlag then
    let file_id_list :=
      ((allDataRows db).filter (fun r => !fs.pathExists r.fname)).map (·.file_id)
    (file_id_list.foldl deleteFileCascade db, false)
  else (db, purgeFlag)

/-- `ImageCache.__purge_missing_files_and_folders`.  With the purge flag
armed, folders gone from disk are deleted (cascading); without it the source
runs `UPDATE folder SET missing = 1 WHERE folder_id = ?`, which raises
`OperationalError` because the schema's `folder` table has no `missing`
column. -/
def purgeMissingFilesAndFolders (fs : FileSystem) (db : DBState)
    (purgeFlag : Bool) : Except PyError (DBState × Bool) :=
  let folder_id_list :=
    (db.folders.filter (fun fo => !fs.pathExists fo.name)).map (·.folder_id)
  match folder_id_list with
  | [] => .ok (purgeMissingFilesPhase fs db purgeFlag)
  | _ :: _ =>
    if purgeFlag then
      .ok (purgeMissingFilesPhase fs
        (folder_id_list.foldl deleteFolderCascade db) purgeFlag)
    else .error (.operationalError "no such column: missing")

/-- Drain the modified-file queue, inserting each file
(`while self.__modified_files ...` with the pause flag clear). -/
def insertAll (fs : FileSystem) : DBState → List String → Except PyError DBState
  | db, [] => .ok db
  | db, file :: rest => do
    let db ← insertFile fs db file none
    insertAll fs db rest

/-- `ImageCache.update_cache` for one pass started with an empty in-memory
backlog and the pause flag clear: rescan, drain the queue, write back folder
info, purge, commit. -/
def updateCache (fs : FileSystem) (db : DBState) (purgeFlag : Bool) :
    Except PyError (DBState × Bool) := do
  let modified_folders ← getModifiedFolders fs db
  let modified_files ← getModifiedFiles fs db modified_folders
  let db ← insertAll fs db modified_files
  let db ← updateFolderInfo db modified_folders
  purgeMissingFilesAndFolders fs db purgeFlag

/-! ## ImageCache read path -/

/-- The `where_clause` argument of `ImageCache.query_cache` is raw SQL text:
either it parses into a predicate over `all_data` rows, or preparing the
statement raises.  The clause text itself is irrelevant to the code (it is
spliced verbatim), so the embedding carries its meaning. -/
inductive WhereClause where
  | wellFormed (pred : AllDataRow → Bool)
  | malformed (msg : String)

/-- `fname ASC` ordering on view rows (the default `sort_clause`). -/
def fnameLe (a b : AllDataRow) : Prop := a.fname ≤ b.fname

instance : DecidableRel fnameLe := fun a b =>
  inferInstanceAs (Decidable (a.fname ≤ b.fname))

instance : IsTotal AllDataRow fnameLe := ⟨fun a b => le_total a.fname b.fname⟩

instance : IsTrans AllDataRow fnameLe := ⟨fun _ _ _ h h' => le_trans h h'⟩

/-- `cursor.execute("SELECT file_id FROM all_data WHERE {w} ORDER BY fname ASC")`:
the fetch succeeds with the matching ids ordered by `fname`, or preparing the
malformed clause raises. -/
def execQueryCache (db : DBState) (w : WhereClause) :
    Except PyError (List Nat) :=
  match w with
  | .malformed msg => .error (.operationalError msg)
  | .wellFormed pred =>
    .ok ((((allDataRows db).filter pred).insertionSort fnameLe).map (·.file_id))

/-- `ImageCache.query_cache`: the bare `except Exception: return []`. -/
def queryCache (db : DBState) (w : WhereClause) : List Nat :=
  match execQueryCache db w with
  | .error _ => []
  | .ok ids => ids

/-- `UPDATE file SET displayed_count = displayed_count + 1,
last_displayed = ? WHERE file_id = ?` applied to one row. -/
def bumpFile (now : Int) (fid : Nat) (f : FileRow) : FileRow :=
  if f.file_id == fid then
    { f with displayed_count := f.displayed_count + 1, last_displayed := now }
  else f

/-- The display-counter update of `get_file_info`. -/
def bumpDisplayed (db : DBState) (fid : Nat) (now : Int) : DBState :=
  { db with files := db.files.map (bumpFile now fid) }

/-- `INSERT OR REPLACE INTO location (latitude, longitude, description)`:
the `UNIQUE (latitude, longitude)` conflict row is deleted and the new row
inserted with a fresh rowid. -/
def insertLocation (db : DBState) (la lo : Int) (description : String) :
    DBState :=
  let kept := db.locations.filter
    (fun L => !(L.latitude == some la && L.longitude == some lo))
  let fresh := (db.locations.foldl (fun a L => max a L.id) 0) + 1
  { db with
    locations := kept ++
      [{ id := fresh, latitude := some la, longitude := some lo,
         description := some description }] }

/-- Python truthiness of a nullable SQL number (`row['latitude'] and ...`):
NULL and `0` are both falsy. -/
def truthyNum : Option Int → Bool
  | none => false
  | some v => v != 0

/-- The geo-resolution step of `get_file_info`: when the row has truthy
coordinates and no resolved location, call the GeoResolver
(`geo_reverse.get_address`); an empty string means "no result yet", a
non-empty one is written to `location` and the row re-fetched. -/
def geoStep (geo : Int → Int → String) (db : DBState) (fid : Nat) :
    Option AllDataRow → DBState × Option AllDataRow
  | none => (db, none)
  | some r =>
    if truthyNum r.latitude && truthyNum r.longitude && r.location == none then
      match r.latitude, r.longitude with
      | some la, some lo =>
        let address := geo la lo
        if address.length == 0 then (db, some r)
        else
          let db' := insertLocation db la lo address
          (db', fetchAllData db' fid)
      | _, _ => (db, some r)
    else (db, some r)

/-- `ImageCache.get_file_info`.  A falsy id returns immediately; otherwise
the row is fetched, the stored mtime is compared against the live one
(`except OSError` swallows a vanished file; a detected change re-runs
`__insert_file`, whose non-`OSError` exceptions propagate to the caller),
the geo step runs, and the display counters are bumped unconditionally. -/
def getFileInfo (fs : FileSystem) (geo : Int → Int → String) (now : Int)
    (db : DBState) (file_id : Option Nat) :
    Except PyError (DBState × Option AllDataRow) :=
  match file_id with
  | none => .ok (db, none)
  | some fid =>
    if fid == 0 then .ok (db, none)
    else
      let step1 : Except PyError (DBState × Option AllDataRow) :=
        match fetchAllData db fid with
        | none => .ok (db, none)
        | some r =>
          match fs.mtime r.fname with
          | none => .ok (db, some r)
          | some live =>
            if r.last_modified == live then .ok (db, some r)
            else
              match insertFile fs db r.fname (some fid) with
              | .error (.osError msg) => let _ := msg; .ok (db, some r)
              | .error e => .error e
              | .ok db' => .ok (db', fetchAllData db' fid)
      match step1 with
      | .error e => .error e
      | .ok (db1, r1) =>
        let stepGeo := geoStep geo db1 fid r1
        .ok (bumpDisplayed stepGeo.1 fid now, stepGeo.2)

/-! ## Schema creation (`schema.py`) and the open-time version check -/

/-- `schema.REQUIRED_SCHEMA_VERSION`. -/
def REQUIRED_SCHEMA_VERSION : Int := 3

/-- The store as `create_schema` sees it: each schema object either exists
(with its current rows, for the tables the claims inspect) or does not.
`db_info`'s rows are its `schema_version` values. -/
structure SchemaDB where
  slideshow_table : Bool
  imported_playlists_table : Bool
  imported_files_table : Bool
  folder : Option (List FolderRow)
  file : Option (List FileRow)
  meta : Option (List MetaRow)
  location : Option (List LocationRow)
  db_info : Option (List Int)
  meta_index : Bool
  all_data_view : Bool
  clean_file_trigger : Bool
  clean_meta_trigger : Bool
deriving DecidableEq, Repr

/-- `schema.create_schema`: every statement is `CREATE ... IF NOT EXISTS`
(existing objects and their rows are left alone), then `DELETE FROM db_info`
and `INSERT INTO db_info VALUES(3)`. -/
def createSchema (db : SchemaDB) : SchemaDB :=
  { slideshow_table := true
    imported_playlists_table := true
    imported_files_table := true
    folder := some (db.folder.getD [])
    file := some (db.file.getD [])
    meta := some (db.meta.getD [])
    location := some (db.location.getD [])
    db_info := some [REQUIRED_SCHEMA_VERSION]
    meta_index := true
    all_data_view := true
    clean_file_trigger := true
    clean_meta_trigger := true }

/-- `ImageCache.__schema_exists_and_valid`: the `db_info` table must exist
and its first `schema_version` row must be at least the required version. -/
def schemaExistsAndValid (db : SchemaDB) : Bool :=
  match db.db_info with
  | none => false
  | some rows =>
    match rows.head? with
    | none => false
    | some v => decide (REQUIRED_SCHEMA_VERSION ≤ v)

/-- The open-time check in `ImageCache.__init__`:
`if not self.__schema_exists_and_valid(): schema.create_schema(self.__db)`. -/
def openStore (db : SchemaDB) : SchemaDB :=
  if schemaExistsAndValid db then db else createSchema db

/-! ## AsyncTimerManager (`async_timer.py`) -/

/-- A registered task: `{name, callback, interval, last_run}` (the callback
body is external; the scheduler only launches it). -/
structure TimerTask where
  name : String
  interval : Int
  last_run : Int
deriving DecidableEq, Repr

/-- Scheduler state: the in-memory task list and the persistent
`timer_state (name TEXT PRIMARY KEY, last_run REAL)` table. -/
structure TimerMgr where
  tasks : List TimerTask
  store : List (String × Int)
deriving DecidableEq, Repr

/-- `AsyncTimerManager._save_last_run`: `INSERT OR REPLACE INTO timer_state`
keyed on `name` (delete the conflicting row, insert the new one). -/
def saveLastRun (store : List (String × Int)) (name : String) (ts : Int) :
    List (String × Int) :=
  store.filter (fun e => !(e.1 == name)) ++ [(name, ts)]

/-- `AsyncTimerManager._load_last_run`. -/
def loadLastRun (store : List (String × Int)) (name : String) : Option Int :=
  (store.find? (fun e => e.1 == name)).map (·.2)

/-- `AsyncTimerManager.register`: a task with no persisted `last_run` starts
at `time.time() - interval` so that it is immediately due. -/
def registerTask (store : List (String × Int)) (now : Int) (name : String)
    (interval : Int) : TimerTask :=
  { name := name, interval := interval,
    last_run := (loadLastRun store name).getD (now - interval) }

/-- `now - task["last_run"] >= task["interval"]`. -/
def dueAt (now : Int) (t : TimerTask) : Bool :=
  decide (t.interval ≤ now - t.last_run)

/-- One tick of `AsyncTimerManager._run` up to the point where the gathered
task bodies start: every due task has `last_run` stamped to `now` and that
timestamp persisted; the returned list is the batch of launched task names
(`asyncio.gather` runs strictly after the loop that stamps and persists). -/
def tick (now : Int) (mgr : TimerMgr) : TimerMgr × List String :=
  let fired := (mgr.tasks.filter (dueAt now)).map (·.name)
  ({ tasks := mgr.tasks.map
       (fun t => if dueAt now t then { t with last_run := now } else t),
     store := fired.foldl (fun s n => saveLastRun s n now) mgr.store },
   fired)

/-! ## Concrete fixtures used by closed theorems and witnesses -/

/-- A fresh, empty catalog store. -/
def dbFresh : DBState := { folders := [], files := [], metas := [], locations := [] }

/-- Disk state for C1: the watched tree is the single folder `/pics`
(mtime 100, not yet in the store) holding the new image `/pics/a.jpg`
(mtime 50). -/
def fsNewFile : FileSystem :=
  { walkDirs := [("/pics", 100)],
    listDir := fun d => if d = "/pics" then ["a.jpg"] else [],
    mtime := fun p => if p = "/pics/a.jpg" then some 50 else none,
    pathExists := fun p => p = "/pics" || p = "/pics/a.jpg" }

/-- A meta row for file 1 (`/pics/a.jpg`). -/
def sampleMeta : MetaRow :=
  { file_id := 1, orientation := 1, exif_datetime := 0, f_number := 0,
    exposure_time := none, iso := 0, focal_length := none, make := none,
    model := none, lens := none, rating := none, latitude := none,
    longitude := none, width := 640, height := 480, title := none,
    caption := none, tags := some "dog,park", nix_caption := none }

/-- A file row for `/pics/a.jpg`, stored with mtime 50. -/
def sampleFile : FileRow :=
  { file_id := 1, folder_id := 1, source := "local", playlist := none,
    basename := "a", extension := "jpg", width := none, height := none,
    last_modified := 50, displayed_count := 0, last_displayed := 0 }

/-- A consistent one-file catalog: folder `/pics`, file 1, meta 1. -/
def dbCatalog : DBState :=
  { folders := [{ folder_id := 1, name := "/pics", last_modified := 100 }],
    files := [sampleFile], metas := [sampleMeta], locations := [] }

/-- Disk state for C5: `/pics/a.jpg` now has mtime 60, newer than the
stored 50. -/
def fsChanged : FileSystem :=
  { walkDirs := [("/pics", 100)],
    listDir := fun d => if d = "/pics" then ["a.jpg"] else [],
    mtime := fun p => if p = "/pics/a.jpg" then some 60 else none,
    pathExists := fun p => p = "/pics" || p = "/pics/a.jpg" }

/-- Disk state for C6's witness: `/pics/a.jpg` still has the stored
mtime 50. -/
def fsStable : FileSystem :=
  { walkDirs := [("/pics", 100)],
    listDir := fun d => if d = "/pics" then ["a.jpg"] else [],
    mtime := fun p => if p = "/pics/a.jpg" then some 50 else none,
    pathExists := fun p => p = "/pics" || p = "/pics/a.jpg" }

/-- A disk on which nothing exists any more. -/
def fsAllGone : FileSystem :=
  { walkDirs := [], listDir := fun _ => [], mtime := fun _ => none,
    pathExists := fun _ => false }

/-- Store for C4: folder `/gone` (with file 1 and its meta) has vanished
from disk. -/
def dbMissingFolder : DBState :=
  { folders := [{ folder_id := 1, name := "/gone", last_modified := 5 }],
    files := [{ sampleFile with basename := "a" }],
    metas := [sampleMeta], locations := [] }

/-- Store for C9's counterexample: `db_info` records version 2 (below the
required 3) while the `folder` table already exists and holds a row. -/
def dbOutdated : SchemaDB :=
  { slideshow_table := false, imported_playlists_table := false,
    imported_files_table := false,
    folder := some [{ folder_id := 1, name := "/pics", last_modified := 7 }],
    file := some [], meta := none, location := none, db_info := some [2],
    meta_index := false, all_data_view := false,
    clean_file_trigger := false, clean_meta_trigger := false }

/-- Store whose recorded schema version already meets the requirement. -/
def dbCurrent : SchemaDB :=
  { slideshow_table := true, imported_playlists_table := true,
    imported_files_table := true,
    folder := some [{ folder_id := 1, name := "/pics", last_modified := 7 }],
    file := some [], meta := some [], location := some [],
    db_info := some [3], meta_index := true, all_data_view := true,
    clean_file_trigger := true, clean_meta_trigger := true }

/-! ## Claim theorems -/

/-- Referential intactness of the catalog: every file row has an owning
folder row and every meta row has an owning file row (the invariant C2
asserts the cascade triggers maintain). -/
def referentiallyIntact (db : DBState) : Bool :=
  db.files.all (fun f =>
    db.folders.any (fun fo => fo.folder_id == f.folder_id)) &&
  db.metas.all (fun m =>
    db.files.any (fun f => f.file_id == m.file_id))

/-- C1: the claim says one `update_cache` pass after a folder-mtime change
inserts exactly one File row and one Meta row for a newly created file.  On
this source tree the pass instead raises: `__insert_file` calls
`self.__get_exif_info`, a method `ImageCache` does not define (Python
name-mangles it to `_ImageCache__get_exif_info`), so the new image's
insertion dies with `AttributeError` and no rows are produced.  (Behind that
slip sit two more: `UPDATE folder SET missing = 0` targets a column the
schema does not create, and the `file` insert omits the `NOT NULL` column
`source`.)  This theorem evaluates the embedded pass at the failing input. -/
theorem C1_new_file_sync_pass_raises :
    updateCache fsNewFile dbFresh false =
      .error (.attributeError
        "'ImageCache' object has no attribute '_ImageCache__get_exif_info'") := by
  rfl

/-- C4: the claim says that without `request_purge` the purge sub-pass sets
`missing = 1` on folders gone from disk and deletes nothing.  The `folder`
table created by `schema.py` has no `missing` column, so that default path
raises `OperationalError` instead of flagging anything; the armed path
(after `purge_files()`) does delete the missing folder, its file and meta
rows, and clears the one-shot flag. -/
theorem C4_purge_default_path_raises :
    purgeMissingFilesAndFolders fsAllGone dbMissingFolder false =
      .error (.operationalError "no such column: missing") ∧
    purgeMissingFilesAndFolders fsAllGone dbMissingFolder true =
      .ok ({ folders := [], files := [], metas := [], locations := [] }, false) := by
  exact ⟨rfl, rfl⟩

/-- C5: the claim says `get_file_info` on a file whose on-disk mtime differs
from the stored one synchronously re-extracts it and returns fresh metadata.
The code does detect the change and calls `__insert_file`, but that call
raises `AttributeError` (see C1), which is not an `OSError` and therefore
propagates to the caller: no fresh metadata is returned and the stored mtime
is not updated. -/
theorem C5_stale_mtime_read_raises :
    getFileInfo fsChanged (fun _ _ => "") 30 dbCatalog (some 1) =
      .error (.attributeError
        "'ImageCache' object has no attribute '_ImageCache__get_exif_info'") := by
  rfl

/-- C10: a falsy file id (absent, or 0) makes `get_file_info` return `None`
immediately: no store read, no re-extraction, no geo lookup, no counter
bump - the store is returned exactly as it was. -/
theorem C10_falsy_id_reads_nothing (fs : FileSystem)
    (geo : Int → Int → String) (now : Int) (db : DBState) :
    getFileInfo fs geo now db none = .ok (db, none) ∧
    getFileInfo fs geo now db (some 0) = .ok (db, none) := by
  exact ⟨rfl, rfl⟩

/-- C9 counterexample: the claim says an outdated store is rebuilt
destructively, "discarding any existing rows".  `create_schema` only issues
`CREATE ... IF NOT EXISTS` statements, so opening `dbOutdated` (version 2,
below the required 3) leaves the existing `folder` row in place. -/
theorem C9_counterexample_rows_survive_rebuild :
    schemaExistsAndValid dbOutdated = false ∧
    (openStore dbOutdated).folder =
      some [{ folder_id := 1, name := "/pics", last_modified := 7 }] := by
  exact ⟨rfl, rfl⟩

/-- C9 (amended): on open, if the version marker table is absent or its
recorded version is below the required constant, the engine runs
`CREATE ... IF NOT EXISTS` for every table, the index, the view and the two
cascade triggers - creating only the missing objects and preserving all
rows of existing tables - then clears the version table and stamps the
required version; if the recorded version is at or above the requirement
the store is left unchanged. -/
theorem C9_open_rebuild_is_nondestructive (db : SchemaDB) :
    (schemaExistsAndValid db = false →
      openStore db = createSchema db ∧
      (createSchema db).folder = some (db.folder.getD []) ∧
      (createSchema db).file = some (db.file.getD []) ∧
      (createSchema db).meta = some (db.meta.getD []) ∧
      (createSchema db).location = some (db.location.getD []) ∧
      (createSchema db).db_info = some [REQUIRED_SCHEMA_VERSION] ∧
      (createSchema db).slideshow_table = true ∧
      (createSchema db).imported_playlists_table = true ∧
      (createSchema db).imported_files_table = true ∧
      (createSchema db).meta_index = true ∧
      (createSchema db).all_data_view = true ∧
      (createSchema db).clean_file_trigger = true ∧
      (createSchema db).clean_meta_trigger = true) ∧
    (schemaExistsAndValid db = true → openStore db = db) := by
  constructor
  · intro h
    refine ⟨?_, rfl, rfl, rfl, rfl, rfl, rfl, rfl, rfl, rfl, rfl, rfl, rfl⟩
    simp [openStore, h]
  · intro h
    simp [openStore, h]

/-- C9 witness: the amended behaviour at a concrete outdated store and a
concrete current one. -/
theorem C9_open_rebuild_witness :
    openStore dbOutdated = createSchema dbOutdated ∧
    openStore dbCurrent = dbCurrent :=
  ⟨((C9_open_rebuild_is_nondestructive dbOutdated).1 rfl).1,
   (C9_open_rebuild_is_nondestructive dbCurrent).2 rfl⟩

/-- C2: deleting a Folder row (the `Clean_File_Trigger` firing, chained into
the `Clean_Meta_Trigger`) removes every File row referencing that folder and
the metas of exactly those files; deleting a File row removes its Meta row;
and either delete preserves referential intactness, so no File row ever
references a nonexistent Folder and no Meta row a nonexistent File. -/
theorem C2_cascade_triggers_preserve_intactness (db : DBState)
    (folderId fileId : Nat) (h : referentiallyIntact db = true) :
    (deleteFolderCascade db folderId).folders.all
        (fun fo => fo.folder_id != folderId) = true ∧
    (deleteFolderCascade db folderId).files.all
        (fun f => f.folder_id != folderId) = true ∧
    referentiallyIntact (deleteFolderCascade db folderId) = true ∧
    (deleteFileCascade db fileId).metas.all
        (fun m => m.file_id != fileId) = true ∧
    referentiallyIntact (deleteFileCascade db fileId) = true := by
  unfold referentiallyIntact at h
  rw [Bool.and_eq_true] at h
  obtain ⟨hf, hm⟩ := h
  rw [List.all_eq_true] at hf
  rw [List.all_eq_true] at hm
  refine ⟨?_, ?_, ?_, ?_, ?_⟩
  · rw [List.all_eq_true]
    intro fo hfo
    simp only [deleteFolderCascade, List.mem_filter] at hfo
    exact hfo.2
  · rw [List.all_eq_true]
    intro f hfmem
    simp only [deleteFolderCascade, List.mem_filter] at hfmem
    exact hfmem.2
  · unfold referentiallyIntact
    rw [Bool.and_eq_true]
    constructor
    · rw [List.all_eq_true]
      intro f hfmem
      simp only [deleteFolderCascade, List.mem_filter] at hfmem
      obtain ⟨hfdb, hkeep⟩ := hfmem
      have := hf f hfdb
      rw [List.any_eq_true] at this
      obtain ⟨fo, hfo, hfoid⟩ := this
      simp only [deleteFolderCascade]
      rw [List.any_eq_true]
      refine ⟨fo, List.mem_filter.mpr ⟨hfo, ?_⟩, hfoid⟩
      rw [beq_iff_eq] at hfoid
      rw [Bool.not_eq_eq_eq_not, Bool.not_true, beq_eq_false_iff_ne, hfoid]
      rw [Bool.not_eq_eq_eq_not, Bool.not_true, beq_eq_false_iff_ne] at hkeep
      exact hkeep
    · rw [List.all_eq_true]
      intro m hmmem
      simp only [deleteFolderCascade, List.mem_filter] at hmmem
      obtain ⟨hmdb, hnotdead⟩ := hmmem
      have := hm m hmdb
      rw [List.any_eq_true] at this
      obtain ⟨f, hfdb, hfid⟩ := this
      simp only [deleteFolderCascade]
      rw [List.any_eq_true]
      refine ⟨f, List.mem_filter.mpr ⟨hfdb, ?_⟩, hfid⟩
      rw [Bool.not_eq_eq_eq_not, Bool.not_true, beq_eq_false_iff_ne]
      intro hfold
      rw [Bool.not_eq_eq_eq_not, Bool.not_true, List.any_eq_false] at hnotdead
      exact hnotdead f
        (List.mem_filter.mpr ⟨hfdb, beq_iff_eq.mpr hfold⟩) hfid
  · rw [List.all_eq_true]
    intro m hmmem
    simp only [deleteFileCascade, List.mem_filter] at hmmem
    exact hmmem.2
  · unfold referentiallyIntact
    rw [Bool.and_eq_true]
    constructor
    · rw [List.all_eq_true]
      intro f hfmem
      simp only [deleteFileCascade, List.mem_filter] at hfmem
      exact hf f hfmem.1
    · rw [List.all_eq_true]
      intro m hmmem
      simp only [deleteFileCascade, List.mem_filter] at hmmem
      obtain ⟨hmdb, hkeep⟩ := hmmem
      have := hm m hmdb
      rw [List.any_eq_true] at this
      obtain ⟨f, hfdb, hfid⟩ := this
      simp only [deleteFileCascade]
      rw [List.any_eq_true]
      refine ⟨f, List.mem_filter.mpr ⟨hfdb, ?_⟩, hfid⟩
      rw [beq_iff_eq] at hfid
      rw [Bool.not_eq_eq_eq_not, Bool.not_true, beq_eq_false_iff_ne, hfid]
      rw [Bool.not_eq_eq_eq_not, Bool.not_true, beq_eq_false_iff_ne] at hkeep
      exact hkeep

/-- C2 witness: the cascades evaluated on the concrete one-file catalog. -/
theorem C2_cascade_triggers_witness :
    referentiallyIntact dbCatalog = true ∧
    ((deleteFolderCascade dbCatalog 1).folders.all
        (fun fo => fo.folder_id != 1) = true ∧
     (deleteFolderCascade dbCatalog 1).files.all
        (fun f => f.folder_id != 1) = true ∧
     referentiallyIntact (deleteFolderCascade dbCatalog 1) = true ∧
     (deleteFileCascade dbCatalog 1).metas.all
        (fun m => m.file_id != 1) = true ∧
     referentiallyIntact (deleteFileCascade dbCatalog 1) = true) :=
  ⟨by decide, C2_cascade_triggers_preserve_intactness dbCatalog 1 1 (by decide)⟩

/-! ## Scheduler lemmas -/

/-- Searching the post-save table for the saved key finds the new row. -/
theorem find?_saveLastRun_self (s : List (String × Int)) (n : String) (v : Int) :
    ((s.filter (fun e => !(e.1 == n))) ++ [(n, v)]).find?
        (fun e => e.1 == n) = some (n, v) := by
  induction s with
  | nil => simp [List.find?]
  | cons e s ih =>
    rw [List.filter_cons]
    cases hen : (e.1 == n) with
    | true => simp only [hen, Bool.not_true, if_neg, Bool.false_eq_true, not_false_iff]; exact ih
    | false =>
      simp only [hen, Bool.not_false, if_pos, List.cons_append]
      rw [List.find?_cons_of_neg _ (by simp [hen])]
      exact ih

/-- Searching the post-save table for another key is unaffected. -/
theorem find?_saveLastRun_other (s : List (String × Int)) (n m : String)
    (v : Int) (h : m ≠ n) :
    ((s.filter (fun e => !(e.1 == n))) ++ [(n, v)]).find?
        (fun e => e.1 == m) = s.find? (fun e => e.1 == m) := by
  have hnm : (((n, v) : String × Int).1 == m) = false :=
    beq_eq_false_iff_ne.mpr (fun hh => h hh.symm)
  induction s with
  | nil =>
    rw [List.filter_nil, List.nil_append,
      List.find?_cons_of_neg _ (by simp [hnm])]
  | cons e s ih =>
    rw [List.filter_cons]
    cases hen : (e.1 == n) with
    | true =>
      have hem : (e.1 == m) = false := by
        rw [beq_iff_eq] at hen
        exact beq_eq_false_iff_ne.mpr (by rw [hen]; exact fun hh => h hh.symm)
      simp only [hen, Bool.not_true, if_neg, Bool.false_eq_true, not_false_iff]
      rw [List.find?_cons_of_neg _ (by simp [hem])]
      exact ih
    | false =>
      simp only [hen, Bool.not_false, if_pos, List.cons_append]
      cases hem : (e.1 == m) with
      | true =>
        rw [List.find?_cons_of_pos (p := fun x : String × Int => x.1 == m) _ hem,
          List.find?_cons_of_pos (p := fun x : String × Int => x.1 == m) _ hem]
      | false =>
        rw [List.find?_cons_of_neg _ (by simp [hem]),
          List.find?_cons_of_neg _ (by simp [hem])]
        exact ih

/-- Reading back the key just written by `saveLastRun`. -/
theorem loadLastRun_save_self (s : List (String × Int)) (n : String) (v : Int) :
    loadLastRun (saveLastRun s n v) n = some v := by
  unfold loadLastRun saveLastRun
  rw [find?_saveLastRun_self]
  rfl

/-- `saveLastRun` does not disturb other keys. -/
theorem loadLastRun_save_other (s : List (String × Int)) (n m : String)
    (v : Int) (h : m ≠ n) :
    loadLastRun (saveLastRun s n v) m = loadLastRun s m := by
  unfold loadLastRun saveLastRun
  rw [find?_saveLastRun_other _ _ _ _ h]

/-- A key not in the fired batch keeps its stored value. -/
theorem loadLastRun_foldl_save_notMem (names : List String)
    (s : List (String × Int)) (now : Int) (name : String)
    (h : name ∉ names) :
    loadLastRun (names.foldl (fun acc n => saveLastRun acc n now) s) name =
      loadLastRun s name := by
  induction names generalizing s with
  | nil => rfl
  | cons n ns ih =>
    simp only [List.mem_cons, not_or] at h
    rw [List.foldl_cons, ih _ h.2, loadLastRun_save_other _ _ _ _ h.1]

/-- Every key in the fired batch ends up stored with value `now`. -/
theorem loadLastRun_foldl_save_mem (names : List String)
    (s : List (String × Int)) (now : Int) (name : String)
    (h : name ∈ names) :
    loadLastRun (names.foldl (fun acc n => saveLastRun acc n now) s) name =
      some now := by
  induction names generalizing s with
  | nil => cases h
  | cons n ns ih =>
    by_cases hm : name ∈ ns
    · rw [List.foldl_cons]; exact ih _ hm
    · have hn : name = n := by
        rcases List.mem_cons.1 h with h1 | h2
        · exact h1
        · exact absurd h2 hm
      subst hn
      rw [List.foldl_cons, loadLastRun_foldl_save_notMem _ _ _ _ hm,
        loadLastRun_save_self]

/-- C3: in a tick of the scheduler's run loop, every task that becomes due
has its `last_run` stamped to the tick's `now` and that timestamp persisted
to `timer_state` before any task body of the batch starts (`tick` models the
loop up to the point where `asyncio.gather` launches the bodies); and a
scheduler reconstructed from the same persisted store (each task
re-registered, picking up its stored `last_run`) does not fire a task whose
interval has not yet elapsed since its last recorded run. -/
theorem C3_stamp_persist_then_launch :
    (∀ (mgr : TimerMgr) (now : Int) (name : String),
        name ∈ (tick now mgr).2 →
        loadLastRun (tick now mgr).1.store name = some now ∧
        (tick now mgr).1.tasks = mgr.tasks.map
          (fun t => if dueAt now t then { t with last_run := now } else t)) ∧
    (∀ (store : List (String × Int)) (now₀ now₁ interval lr : Int)
        (name : String),
        loadLastRun store name = some lr →
        now₁ - lr < interval →
        name ∉ (tick now₁ { tasks := [registerTask store now₀ name interval],
                            store := store }).2) := by
  constructor
  · intro mgr now name h
    exact ⟨loadLastRun_foldl_save_mem _ _ _ _ h, rfl⟩
  · intro store now₀ now₁ interval lr name hload hlt
    have hdue : dueAt now₁ (registerTask store now₀ name interval) = false := by
      simp only [dueAt, registerTask, hload, Option.getD_some, decide_eq_false_iff_not]
      omega
    simp [tick, List.filter_cons, hdue]

/-- C3 witness: a concrete tick fires the overdue task "sync" with its
timestamp persisted first, and a rebuilt scheduler does not re-fire "sync"
one second into its two-second interval. -/
theorem C3_stamp_persist_witness :
    loadLastRun
        (tick 5 { tasks := [{ name := "sync", interval := 2, last_run := 0 }],
                  store := [] }).1.store "sync" = some 5 ∧
    "sync" ∉ (tick 11 { tasks := [registerTask [("sync", 10)] 11 "sync" 2],
                        store := [("sync", 10)] }).2 :=
  ⟨(C3_stamp_persist_then_launch.1
      { tasks := [{ name := "sync", interval := 2, last_run := 0 }], store := [] }
      5 "sync" (by decide)).1,
   C3_stamp_persist_then_launch.2 [("sync", 10)] 11 11 2 10 "sync"
     (by decide) (by decide)⟩

/-- C8: registering a task whose name has no persisted `last_run` row
initializes its `last_run` to `now - interval`, so it is due - and is
launched - on the very first tick at any time `t ≥ now`. -/
theorem C8_unseen_task_fires_first_tick (store : List (String × Int))
    (now t interval : Int) (name : String)
    (hnone : loadLastRun store name = none) (ht : now ≤ t) :
    (registerTask store now name interval).last_run = now - interval ∧
    dueAt t (registerTask store now name interval) = true ∧
    name ∈ (tick t { tasks := [registerTask store now name interval],
                     store := store }).2 := by
  have hlr : (registerTask store now name interval).last_run = now - interval := by
    simp [registerTask, hnone]
  have hdue : dueAt t (registerTask store now name interval) = true := by
    simp only [dueAt, registerTask, hnone, Option.getD_none, decide_eq_true_eq]
    omega
  refine ⟨hlr, hdue, ?_⟩
  have hdue2 : dueAt t { name := name, interval := interval,
                         last_run := (loadLastRun store name).getD (now - interval) } = true :=
    hdue
  have hfired : (tick t { tasks := [registerTask store now name interval],
                          store := store }).2 = [name] := by
    simp [tick, List.filter_cons, registerTask, hdue2]
  rw [hfired]
  exact List.mem_singleton.mpr rfl

/-- C8 witness: a fresh "sync" task registered at time 10 with interval 2
fires on a first tick at time 10. -/
theorem C8_unseen_task_witness :
    (registerTask [] 10 "sync" 2).last_run = 8 ∧
    dueAt 10 (registerTask [] 10 "sync" 2) = true ∧
    "sync" ∈ (tick 10 { tasks := [registerTask [] 10 "sync" 2],
                        store := [] }).2 :=
  C8_unseen_task_fires_first_tick [] 10 10 2 "sync" (by decide) (by decide)

/-- C7: a malformed filter clause makes `query_cache` return the empty list
instead of raising (the bare `except` swallows the sqlite error), and a
well-formed clause returns exactly the ids of the matching `all_data` rows,
ordered by the `fname ASC` sort clause. -/
theorem C7_query_malformed_empty (db : DBState) (msg : String)
    (pred : AllDataRow → Bool) :
    queryCache db (.malformed msg) = [] ∧
    ∃ rows : List AllDataRow,
      rows.Perm ((allDataRows db).filter pred) ∧
      List.Sorted fnameLe rows ∧
      queryCache db (.wellFormed pred) = rows.map (·.file_id) :=
  ⟨rfl, ((allDataRows db).filter pred).insertionSort fnameLe,
   List.perm_insertionSort fnameLe _, List.sorted_insertionSort fnameLe _, rfl⟩

/-! ## `get_file_info` stability lemmas (for C6) -/

/-- Searching decorated view rows by `file_id` is a search of the core rows
(`decorate` does not touch `file_id`). -/
theorem find?_map_decorate (locs : List LocationRow) (l : List CoreRow)
    (fid : Nat) :
    ((l.map (decorate locs)).find? (fun r => r.file_id == fid)) =
      (l.find? (fun c => c.meta.file_id == fid)).map (decorate locs) := by
  induction l with
  | nil => rfl
  | cons c l ih =>
    rw [List.map_cons]
    cases hc : (c.meta.file_id == fid) with
    | true =>
      rw [List.find?_cons_of_pos (p := fun r : AllDataRow => r.file_id == fid)
          _ hc,
        List.find?_cons_of_pos (p := fun x : CoreRow => x.meta.file_id == fid)
          _ hc]
      rfl
    | false =>
      rw [List.find?_cons_of_neg (p := fun r : AllDataRow => r.file_id == fid)
          _ (by simp [decorate, hc]),
        List.find?_cons_of_neg (p := fun x : CoreRow => x.meta.file_id == fid)
          _ (by simp [hc])]
      exact ih

/-- `fetchAllData` factored through the core rows and `decorate`. -/
theorem fetchAllData_decomp (db : DBState) (fid : Nat) :
    fetchAllData db fid =
      ((coreRows db.folders db.metas db.files).find?
          (fun c => c.meta.file_id == fid)).map (decorate db.locations) := by
  unfold fetchAllData allDataRows
  exact find?_map_decorate db.locations _ fid

/-- Bumping the display counters leaves every view-relevant file field
(`file_id`, `folder_id`, `basename`, `extension`, `last_modified`) alone. -/
theorem viewCore_bumpFile (folders : List FolderRow) (metas : List MetaRow)
    (t : Int) (fid : Nat) (f : FileRow) :
    viewCore folders metas (bumpFile t fid f) = viewCore folders metas f := by
  unfold bumpFile
  split
  · rfl
  · rfl

/-- The core view rows are unchanged by a display-counter bump. -/
theorem coreRows_map_bumpFile (folders : List FolderRow)
    (metas : List MetaRow) (files : List FileRow) (t : Int) (fid : Nat) :
    coreRows folders metas (files.map (bumpFile t fid)) =
      coreRows folders metas files := by
  unfold coreRows
  rw [List.filterMap_map]
  have : viewCore folders metas ∘ bumpFile t fid = viewCore folders metas :=
    funext (viewCore_bumpFile folders metas t fid)
  rw [this]

/-- The geo-resolution step touches only the `location` table. -/
theorem geoStep_preserves (geo : Int → Int → String) (db : DBState)
    (fid : Nat) (r? : Option AllDataRow) :
    (geoStep geo db fid r?).1.files = db.files ∧
    (geoStep geo db fid r?).1.folders = db.folders ∧
    (geoStep geo db fid r?).1.metas = db.metas := by
  cases r? with
  | none => exact ⟨rfl, rfl, rfl⟩
  | some r =>
    simp only [geoStep]
    split
    · split <;> try exact ⟨rfl, rfl, rfl⟩
      split <;> exact ⟨rfl, rfl, rfl⟩
    · exact ⟨rfl, rfl, rfl⟩

/-- Two display-counter bumps compose into a single `+2` update. -/
theorem bumpFile_bumpFile (t1 t2 : Int) (fid : Nat) (f : FileRow) :
    bumpFile t2 fid (bumpFile t1 fid f) =
      if f.file_id == fid then
        { f with displayed_count := f.displayed_count + 2,
                 last_displayed := t2 }
      else f := by
  unfold bumpFile
  cases hb : (f.file_id == fid) with
  | true =>
    simp [hb, FileRow.mk.injEq]
    omega
  | false => simp [hb]

/-- Evaluation of `get_file_info` on a present row whose stored mtime equals
the live one: no re-extraction happens, the geo step runs, and the counters
are bumped. -/
theorem getFileInfo_nochange (fs : FileSystem) (geo : Int → Int → String)
    (now : Int) (db : DBState) (fid : Nat) (r : AllDataRow)
    (hfid : (fid == 0) = false)
    (hrow : fetchAllData db fid = some r)
    (hmtime : fs.mtime r.fname = some r.last_modified) :
    getFileInfo fs geo now db (some fid) =
      .ok (bumpDisplayed (geoStep geo db fid (some r)).1 fid now,
           (geoStep geo db fid (some r)).2) := by
  unfold getFileInfo
  simp [hfid, hrow, hmtime]

/-- C6: two `get_file_info` calls on the same present file with no
intervening filesystem change both succeed, increment that file's
`displayed_count` by exactly two and stamp `last_displayed`, and change no
other field of the file's rows: every other `file` column, the whole `meta`
table and the whole `folder` table are untouched. -/
theorem C6_double_read_bumps_only_counters (fs : FileSystem)
    (geo : Int → Int → String) (t1 t2 : Int) (db : DBState) (fid : Nat)
    (r : AllDataRow) (hfid : (fid == 0) = false)
    (hrow : fetchAllData db fid = some r)
    (hmtime : fs.mtime r.fname = some r.last_modified) :
    ∃ (db1 db2 : DBState) (r1 r2 : Option AllDataRow),
      getFileInfo fs geo t1 db (some fid) = .ok (db1, r1) ∧
      getFileInfo fs geo t2 db1 (some fid) = .ok (db2, r2) ∧
      db2.files = db.files.map (fun f =>
        if f.file_id == fid then
          { f with displayed_count := f.displayed_count + 2,
                   last_displayed := t2 }
        else f) ∧
      db2.metas = db.metas ∧
      db2.folders = db.folders := by
  have h1 := getFileInfo_nochange fs geo t1 db fid r hfid hrow hmtime
  obtain ⟨hGf, hGfo, hGm⟩ := geoStep_preserves geo db fid (some r)
  obtain ⟨c, hc, hrc⟩ := Option.map_eq_some'.mp ((fetchAllData_decomp db fid) ▸ hrow)
  have e2 : (bumpDisplayed (geoStep geo db fid (some r)).1 fid t1).files =
      db.files.map (bumpFile t1 fid) := by
    show ((geoStep geo db fid (some r)).1.files).map (bumpFile t1 fid) = _
    rw [hGf]
  have e1 : (bumpDisplayed (geoStep geo db fid (some r)).1 fid t1).folders =
      db.folders := hGfo
  have e3 : (bumpDisplayed (geoStep geo db fid (some r)).1 fid t1).metas =
      db.metas := hGm
  have hrow1 : fetchAllData
      (bumpDisplayed (geoStep geo db fid (some r)).1 fid t1) fid =
      some (decorate
        (bumpDisplayed (geoStep geo db fid (some r)).1 fid t1).locations c) := by
    rw [fetchAllData_decomp, e1, e2, e3, coreRows_map_bumpFile, hc]
    rfl
  have hfname : (decorate
      (bumpDisplayed (geoStep geo db fid (some r)).1 fid t1).locations c).fname
        = r.fname := by
    rw [← hrc]; rfl
  have hlm : (decorate
      (bumpDisplayed (geoStep geo db fid (some r)).1 fid t1).locations
        c).last_modified = r.last_modified := by
    rw [← hrc]; rfl
  have hmtime1 : fs.mtime (decorate
      (bumpDisplayed (geoStep geo db fid (some r)).1 fid t1).locations c).fname
        = some (decorate
      (bumpDisplayed (geoStep geo db fid (some r)).1 fid t1).locations
        c).last_modified := by
    rw [hfname, hlm]; exact hmtime
  have h2 := getFileInfo_nochange fs geo t2
    (bumpDisplayed (geoStep geo db fid (some r)).1 fid t1) fid _ hfid hrow1 hmtime1
  obtain ⟨hG2f, hG2fo, hG2m⟩ := geoStep_preserves geo
    (bumpDisplayed (geoStep geo db fid (some r)).1 fid t1) fid
    (some (decorate
      (bumpDisplayed (geoStep geo db fid (some r)).1 fid t1).locations c))
  refine ⟨_, _, _, _, h1, h2, ?_, ?_, ?_⟩
  · show ((geoStep geo
        (bumpDisplayed (geoStep geo db fid (some r)).1 fid t1) fid
        (some (decorate
          (bumpDisplayed (geoStep geo db fid (some r)).1 fid t1).locations
            c))).1.files).map (bumpFile t2 fid) = _
    rw [hG2f, e2, List.map_map]
    have : bumpFile t2 fid ∘ bumpFile t1 fid = (fun f =>
        if f.file_id == fid then
          { f with displayed_count := f.displayed_count + 2,
                   last_displayed := t2 }
        else f) :=
      funext (bumpFile_bumpFile t1 t2 fid)
    rw [this]
  · show (geoStep geo
        (bumpDisplayed (geoStep geo db fid (some r)).1 fid t1) fid
        (some (decorate
          (bumpDisplayed (geoStep geo db fid (some r)).1 fid t1).locations
            c))).1.metas = db.metas
    rw [hG2m, e3]
  · show (geoStep geo
        (bumpDisplayed (geoStep geo db fid (some r)).1 fid t1) fid
        (some (decorate
          (bumpDisplayed (geoStep geo db fid (some r)).1 fid t1).locations
            c))).1.folders = db.folders
    rw [hG2fo, e1]

/-- C6 witness: the double read evaluated on the concrete one-file catalog
with the disk mtime equal to the stored one. -/
theorem C6_double_read_witness :
    ((1 : Nat) == 0) = false ∧
    fetchAllData dbCatalog 1 = some (decorate [] (CoreRow.mk "/pics/a.jpg" 50 sampleMeta)) ∧
    (∃ (db1 db2 : DBState) (r1 r2 : Option AllDataRow),
      getFileInfo fsStable (fun _ _ => "") 10 dbCatalog (some 1) = .ok (db1, r1) ∧
      getFileInfo fsStable (fun _ _ => "") 20 db1 (some 1) = .ok (db2, r2) ∧
      db2.files = dbCatalog.files.map (fun f =>
        if f.file_id == 1 then
          { f with displayed_count := f.displayed_count + 2,
                   last_displayed := 20 }
        else f) ∧
      db2.metas = dbCatalog.metas ∧
      db2.folders = dbCatalog.folders) :=
  ⟨by decide, by decide,
   C6_double_read_bumps_only_counters fsStable (fun _ _ => "") 10 20 dbCatalog 1
     (decorate [] (CoreRow.mk "/pics/a.jpg" 50 sampleMeta))
     (by decide) (by decide) (by decide)⟩

end Picframe
